import Mathlib

/-!
Verification of the issuing-treasury onboarding flow.

Shallow embedding of the account-onboarding orchestration of the
Unicorn-Investment/issuing-treasury demo application:

* `register` — the `POST /api/register` handler
  (`src/expense-management/src/pages/api/register.ts`);
* `onboard` — the `POST /api/onboard` handler (`src/unnamed/part_000`);
* `hasOutstandingRequirements` and `createAccountOnboardingUrl`
  (`src/unnamed/part_001`).

Remote services (the payments provider, the database, bcrypt) are modelled as
explicit parameters (oracles) and the side effects each handler performs are
recorded as an ordered event trace, so that ordering claims ("the remote
account creation strictly precedes the local insert") are statable.
-/

namespace IssuingTreasury

/-! ## Data model -/

/-- A local `User` row, as persisted by `prisma.user.create` in `register.ts`
(`email`, `password` — the bcrypt hash —, `accountId`, `country`). -/
structure User where
  email : String
  password : String
  accountId : String
  country : String
deriving DecidableEq, Repr

/-- The `requirements` sub-object of a remote connected account, as read by
`hasOutstandingRequirements` in `src/unnamed/part_001`. The `currently_due`
list may be absent (`undefined` in the source), hence `Option`. -/
structure Requirements where
  currently_due : Option (List String)
deriving DecidableEq, Repr

/-- The slice of a remote connected account inspected by
`hasOutstandingRequirements`: just its (possibly absent) `requirements`. -/
structure Account where
  requirements : Option Requirements
deriving DecidableEq, Repr

/-! ## `hasOutstandingRequirements` (src/unnamed/part_001, lines 3-14) -/

/-- `const IGNORE_REQUIREMENTS = ["external_account"];` -/
def IGNORE_REQUIREMENTS : List String := ["external_account"]

/-- Embedding of `hasOutstandingRequirements` from `src/unnamed/part_001`,
as a function of the retrieved account (the source first performs
`stripe.accounts.retrieve(accountId)`, its only remote call, and then computes
the result purely from the retrieved record; the embedding takes the retrieved
record directly). The optional chain
`account?.requirements?.currently_due?.filter(...).length ?? 0` short-circuits
to `undefined` — hence to `0` via `?? 0` — as soon as one link is absent. -/
def hasOutstandingRequirements (account : Option Account) : Bool :=
  (((account.bind Account.requirements).bind Requirements.currently_due).map
      (fun l =>
        (l.filter (fun requirement =>
          !(IGNORE_REQUIREMENTS.contains requirement))).length)).getD 0
    > 0

/-! ## `createAccountOnboardingUrl` (src/unnamed/part_001, lines 16-31) -/

/-- Parameters of a `stripe.accountLinks.create` request, as built in
`createAccountOnboardingUrl`. -/
structure AccountLinkParams where
  type : String
  account : String
  refresh_url : String
  return_url : String
deriving DecidableEq, Repr

/-- The account-link request built by `createAccountOnboardingUrl` from a base
redirect URL and an account id. -/
def accountLinkParams (base accountId : String) : AccountLinkParams :=
  { type := "account_onboarding"
    account := accountId
    refresh_url := base ++ "/onboard"
    return_url := base ++ "/" }

/-- Embedding of `createAccountOnboardingUrl` from `src/unnamed/part_001`.
`config` is `process.env.CONNECT_ONBOARDING_REDIRECT_URL` (`none` when unset);
`mkUrl` is the remote `stripe.accountLinks.create` oracle, mapping the request
parameters to the `url` field of its response. The result pairs the outcome
(`throw` is `Except.error`) with the ordered list of account-link requests
actually issued. -/
def createAccountOnboardingUrl (config : Option String) (accountId : String)
    (mkUrl : AccountLinkParams → String) :
    Except String String × List AccountLinkParams :=
  match config with
  | none => (Except.error "CONNECT_ONBOARDING_REDIRECT_URL is not set", [])
  | some base =>
    let p := accountLinkParams base accountId
    (Except.ok (mkUrl p), [p])

/-! ## Validation of the registration payload

The server validates with `validationSchemas.user.validate(..., { abortEarly:
false })` (`register.ts`, lines 20-24). The module `src/utils/validation_schemas`
itself is not among the sources; the client-side Yup schema in
`src/src/pages/auth/register.tsx` (lines 44-58) declares the same email and
password constraints and supplies the message strings used below. -/

/-- `getCharacterValidationError` from `src/src/pages/auth/register.tsx`. -/
def getCharacterValidationError (str : String) : String :=
  "Your password must have at least 1 " ++ str ++ " character"

/-- Modelled from the spec: §4.2 requires a "valid email"; the concrete Yup
email regular expression lives in the missing `validation_schemas` module, so
validity is modelled as the minimal shape test: exactly one `@` separating two
non-empty parts. -/
def isValidEmailShape (email : String) : Bool :=
  email.data.count '@' == 1 &&
  email.data.head? != some '@' &&
  email.data.getLast? != some '@'

/-- Violation messages for the `email` field, following the Yup chain
`string().email(...).max(255).required(...)` of `register.tsx`; with
`abortEarly: false` every failing rule contributes its message. -/
def emailErrors (email : String) : List String :=
  (if email = "" then ["Email is required"] else []) ++
  (if ¬ isValidEmailShape email then ["Must be a valid email"] else []) ++
  (if 255 < email.length then ["email must be at most 255 characters"] else [])

/-- Violation messages for the `password` field, following the Yup chain
`string().max(255).required(...).min(8, ...).matches(/[0-9]/, ...)
.matches(/[a-z]/, ...).matches(/[A-Z]/, ...)` of `register.tsx`; with
`abortEarly: false` every failing rule contributes its message. -/
def passwordErrors (password : String) : List String :=
  (if 255 < password.length then ["password must be at most 255 characters"]
   else []) ++
  (if password = "" then ["Password is required"] else []) ++
  (if password.length < 8 then ["Password must have at least 8 characters"]
   else []) ++
  (if ¬ password.data.any Char.isDigit then
     [getCharacterValidationError "digit"] else []) ++
  (if ¬ password.data.any Char.isLower then
     [getCharacterValidationError "lowercase"] else []) ++
  (if ¬ password.data.any Char.isUpper then
     [getCharacterValidationError "uppercase"] else [])

/-- Modelled from the spec: §4.2 requires the country to be a "supported
country code"; the concrete list lives in the missing `validation_schemas`
module. The onboarding code recognizes US and GB, so those stand in as the
supported set. -/
def supportedCountries : List String := ["US", "GB"]

/-- Modelled from the spec: the country-field check of the missing
`validationSchemas.user`. -/
def countryErrors (country : String) : List String :=
  if supportedCountries.contains country then []
  else ["Country is not supported"]

/-- A `POST /api/register` request body (`{ email, password, country }`). -/
structure RegisterInput where
  email : String
  password : String
  country : String
deriving DecidableEq, Repr

/-- The aggregated eager validation of the registration payload
(`validationSchemas.user.validate(..., { abortEarly: false })`): the
concatenated violation messages of every field; the empty list means success. -/
def userValidationErrors (inp : RegisterInput) : List String :=
  emailErrors inp.email ++ passwordErrors inp.password ++
    countryErrors inp.country

/-- Modelled from the spec: §4.1 — on validation failure the caller responds
with "a single human-readable message summarizing all violations". The exact
join performed by the Yup error object is not in the sources; the messages are
joined in order. -/
def aggregateErrors (errs : List String) : String :=
  String.intercalate ". " errs

/-! ## The `register` handler (src/expense-management/src/pages/api/register.ts) -/

/-- Parameters of the `stripe.accounts.create` request built in `register.ts`
(lines 48-66). The two demo-only fields (`business_type` and
`individual.id_number`) are `Option`s: the JS conditional spread
`...(isDemoMode() && {...})` omits them entirely outside demo mode. The
`capabilities` object always holds exactly the two keys `transfers` and
`card_issuing`, each `{ requested: true }`. -/
structure AccountCreateParams where
  type : String
  country : String
  email : String
  business_type : Option String
  individual_id_number : Option String
  capabilities_transfers_requested : Bool
  capabilities_card_issuing_requested : Bool
deriving DecidableEq, Repr

/-- The `stripe.accounts.create` request `register.ts` builds for a given
demo-mode flag, country and email. -/
def accountCreateParams (demo : Bool) (country email : String) :
    AccountCreateParams :=
  { type := "custom"
    country := country
    email := email
    business_type := if demo then some "individual" else none
    individual_id_number := if demo then some "000000000" else none
    capabilities_transfers_requested := true
    capabilities_card_issuing_requested := true }

instance {ε α : Type} [DecidableEq ε] [DecidableEq α] :
    DecidableEq (Except ε α) := fun a b =>
  match a, b with
  | Except.error x, Except.error y =>
    if h : x = y then isTrue (by rw [h])
    else isFalse (by intro hc; exact h (Except.error.inj hc))
  | Except.error _, Except.ok _ => isFalse (by intro hc; exact Except.noConfusion hc)
  | Except.ok _, Except.error _ => isFalse (by intro hc; exact Except.noConfusion hc)
  | Except.ok x, Except.ok y =>
    if h : x = y then isTrue (by rw [h])
    else isFalse (by intro hc; exact h (Except.ok.inj hc))

/-- A side effect of the `register` handler, in the order performed:
a remote `stripe.accounts.create` call (with its outcome) or a local
`prisma.user.create` insert. -/
inductive RegisterEvent where
  | accountCreate (params : AccountCreateParams) (result : Except String String)
  | userInsert (u : User)
deriving DecidableEq, Repr

/-- The JSON envelope returned by `register` (`apiResponse`): an HTTP status,
the `success` flag and the optional `error.message`. The success response
carries no `data` payload, so none is modelled. -/
structure RegisterResponse where
  status : Nat
  success : Bool
  errorMessage : Option String
deriving DecidableEq, Repr

/-- Outcome of one `register` invocation: the HTTP response and the ordered
trace of side effects performed. -/
structure RegisterOutcome where
  response : RegisterResponse
  events : List RegisterEvent
deriving DecidableEq, Repr

/-- Embedding of the `register` handler
(`src/expense-management/src/pages/api/register.ts`, lines 17-80).

* `demo` — `isDemoMode()`;
* `db` — the current `User` table, queried by
  `prisma.user.findFirst({ where: { email } })`;
* `remote` — the `stripe.accounts.create` oracle, mapping the request to
  either the created account id or a thrown error;
* `hash` — the `bcrypt.hash(·, 10)` oracle.

A thrown remote error propagates unhandled (an HTTP 500 in Next.js); in that
case no user is inserted. -/
def register (demo : Bool) (db : List User) (inp : RegisterInput)
    (remote : AccountCreateParams → Except String String)
    (hash : String → String) : RegisterOutcome :=
  let errs := userValidationErrors inp
  if errs ≠ [] then
    { response :=
        { status := 400, success := false
          errorMessage := some (aggregateErrors errs) }
      events := [] }
  else if (db.find? (fun u => u.email = inp.email)).isSome then
    { response :=
        { status := 400, success := false
          errorMessage := some "Account already exists" }
      events := [] }
  else
    let p := accountCreateParams demo inp.country inp.email
    match remote p with
    | Except.error e =>
      { response := { status := 500, success := false, errorMessage := some e }
        events := [RegisterEvent.accountCreate p (Except.error e)] }
    | Except.ok accountId =>
      let u : User :=
        { email := inp.email, password := hash inp.password
          accountId := accountId, country := inp.country }
      { response := { status := 200, success := true, errorMessage := none }
        events := [RegisterEvent.accountCreate p (Except.ok accountId),
                   RegisterEvent.userInsert u] }

/-! ## The `onboard` handler (src/unnamed/part_000) -/

/-- The financial products of the demo (`src/types/financial_product`, not
among the sources; `part_000` compares the session value against
`FinancialProduct.EmbeddedFinance`, and the repository also ships the
expense-management variant). Only the Embedded-Finance test matters here. -/
inductive FinancialProduct where
  | EmbeddedFinance
  | ExpenseManagement
deriving DecidableEq, Repr

/-- Modelled from the spec: the fixed terms-of-service acceptance record
`TOS_ACCEPTANCE` exported by the missing `src/utils/demo-helpers` module.
The claims only test for its presence or absence, so it is an inert fixed
token here. -/
structure TosAcceptance where
  token : String
deriving DecidableEq, Repr

/-- The fixed `TOS_ACCEPTANCE` constant imported by `part_000`. -/
def TOS_ACCEPTANCE : TosAcceptance := { token := "TOS_ACCEPTANCE" }

/-- The session consumed by `onboard` (`getSessionForServerSide`):
`{ email, country, financialProduct, stripeAccount: { accountId, platform } }`.
The platform only selects the remote client and is not observed by any claim,
so it is kept as a plain string. -/
structure Session where
  email : String
  country : String
  financialProduct : FinancialProduct
  accountId : String
  platform : String
deriving DecidableEq, Repr

/-- The `individual.address` object of the demo KYC overlay
(`part_000`, lines 70-83): `line1` is always the auto-verify sentinel, the
city/state/postal fields come from the two country-specific conditional
spreads, and `country` is always present. -/
structure IndividualAddress where
  line1 : Option String
  city : Option String
  state : Option String
  postal_code : Option String
  country : Option String
deriving DecidableEq, Repr

/-- The `individual.dob` object (`part_000`, lines 85-89). -/
structure Dob where
  day : Nat
  month : Nat
  year : Nat
deriving DecidableEq, Repr

/-- The `individual` object of the demo KYC overlay
(`part_000`, lines 69-97). -/
structure Individual where
  address : IndividualAddress
  dob : Dob
  email : String
  first_name : String
  last_name : String
  phone : String
deriving DecidableEq, Repr

/-- The `business_profile` object: `name` is always set; the remaining fields
only appear in the demo overlay (`part_000`, lines 50 and 57-63). -/
structure BusinessProfile where
  name : String
  mcc : Option String
  product_description : Option String
  url : Option String
deriving DecidableEq, Repr

/-- The `company` object of the demo overlay (`part_000`, lines 64-68). -/
structure Company where
  name : String
  tax_id : String
deriving DecidableEq, Repr

/-- The `settings` object of the demo overlay (`part_000`, lines 100-118):
card-issuing ToS acceptance always, treasury ToS acceptance only under the
Embedded-Finance conditional spread. -/
structure AccountSettings where
  card_issuing_tos_acceptance : TosAcceptance
  treasury_tos_acceptance : Option TosAcceptance
deriving DecidableEq, Repr

/-- The `Stripe.AccountUpdateParams` payload built by `onboard`
(`part_000`, lines 49-120). Everything other than `business_profile` exists
only when the demo overlay applies, hence the `Option`s. -/
structure AccountUpdateParams where
  business_profile : BusinessProfile
  business_type : Option String
  company : Option Company
  individual : Option Individual
  tos_acceptance : Option TosAcceptance
  settings : Option AccountSettings
deriving DecidableEq, Repr

/-- The `onboardingData` payload built by `onboard` (`part_000`, lines
49-120). Outside demo mode the payload is only
`{ business_profile: { name: businessName } }`; in demo mode the conditional
spread `...(isDemoMode() && {...})` overlays the synthetic KYC profile, with

* `business_profile` replaced by the full demo profile,
* the US/GB conditional spreads inside `individual.address`,
* the root `tos_acceptance` present only under `...(skipOnboarding && ...)`,
* `settings.card_issuing.tos_acceptance` always present, and
* `settings.treasury.tos_acceptance` present only under the
  Embedded-Finance conditional spread. -/
def buildOnboardingData (demo : Bool) (businessName country email : String)
    (financialProduct : FinancialProduct) (skipOnboarding : Bool) :
    AccountUpdateParams :=
  if demo then
    { business_profile :=
        { name := businessName
          mcc := some "5734"
          product_description := some "Some demo product"
          url := some "https://some-company.com" }
      business_type := some "individual"
      company := some { name := businessName, tax_id := "000000000" }
      individual := some
        { address :=
            { line1 := some "address_full_match"
              city :=
                if country = "US" then some "South San Francisco"
                else if country = "GB" then some "London"
                else none
              state := if country = "US" then some "CA" else none
              postal_code :=
                if country = "US" then some "94080"
                else if country = "GB" then some "WC32 4AP"
                else none
              country := some country }
          dob := { day := 1, month := 1, year := 1901 }
          email := email
          first_name := "John"
          last_name := "Smith"
          phone := "2015550123" }
      tos_acceptance := if skipOnboarding then some TOS_ACCEPTANCE else none
      settings := some
        { card_issuing_tos_acceptance := TOS_ACCEPTANCE
          treasury_tos_acceptance :=
            if financialProduct = FinancialProduct.EmbeddedFinance then
              some TOS_ACCEPTANCE
            else none } }
  else
    { business_profile :=
        { name := businessName, mcc := none
          product_description := none, url := none }
      business_type := none
      company := none
      individual := none
      tos_acceptance := none
      settings := none }

/-- Modelled from the spec: §4.1 — the business schemas of the missing
`validation_schemas` module. Both the strict `business.default` schema and the
demo `business.withOnbardingSkip` schema require the business name; the demo
variant additionally accepts the optional skip flag, which carries no further
constraint. -/
def businessValidationErrors (demo : Bool) (businessName : String) :
    List String :=
  let _ := demo
  if businessName = "" then ["businessName is a required field"] else []

/-- A side effect of the `onboard` handler, in the order performed: the
`stripe.accounts.update` call or a `stripe.accountLinks.create` call. -/
inductive OnboardEvent where
  | accountUpdate (accountId : String) (params : AccountUpdateParams)
  | accountLinkCreate (params : AccountLinkParams)
deriving DecidableEq, Repr

/-- The JSON envelope returned by `onboard`: status, `success` flag, optional
`error.message` and optional `data.redirectUrl`. -/
structure OnboardResponse where
  status : Nat
  success : Bool
  errorMessage : Option String
  redirectUrl : Option String
deriving DecidableEq, Repr

/-- Outcome of one `onboard` invocation: the HTTP response and the ordered
trace of remote calls performed. -/
structure OnboardOutcome where
  response : OnboardResponse
  events : List OnboardEvent
deriving DecidableEq, Repr

/-- Embedding of the `onboard` handler (`src/unnamed/part_000`, lines 18-140).

* `demo` — `isDemoMode()`;
* `s` — the session;
* `businessName`, `skipOnboarding` — the request body (the skip flag may be
  absent, and JS truthiness treats `undefined` like `false` both in the
  payload spread and in the bypass test);
* `config` — `process.env.CONNECT_ONBOARDING_REDIRECT_URL`;
* `mkLinkUrl` — the `stripe.accountLinks.create` oracle.

The handler validates, updates the remote account, then either returns the
bypass redirect `"/"` (demo mode with the skip flag) or obtains a hosted
onboarding link through `createAccountOnboardingUrl` (whose configuration
error propagates unhandled, an HTTP 500 in Next.js). -/
def onboard (demo : Bool) (s : Session) (businessName : String)
    (skipOnboarding : Option Bool) (config : Option String)
    (mkLinkUrl : AccountLinkParams → String) : OnboardOutcome :=
  let errs := businessValidationErrors demo businessName
  if errs ≠ [] then
    { response :=
        { status := 400, success := false
          errorMessage := some (aggregateErrors errs), redirectUrl := none }
      events := [] }
  else
    let skip := skipOnboarding.getD false
    let onboardingData :=
      buildOnboardingData demo businessName s.country s.email
        s.financialProduct skip
    let updateEv := OnboardEvent.accountUpdate s.accountId onboardingData
    if demo && skip then
      { response :=
          { status := 200, success := true
            errorMessage := none, redirectUrl := some "/" }
        events := [updateEv] }
    else
      match createAccountOnboardingUrl config s.accountId mkLinkUrl with
      | (Except.error e, _) =>
        { response :=
            { status := 500, success := false
              errorMessage := some e, redirectUrl := none }
          events := [updateEv] }
      | (Except.ok url, linkReqs) =>
        { response :=
            { status := 200, success := true
              errorMessage := none, redirectUrl := some url }
          events := updateEv :: linkReqs.map OnboardEvent.accountLinkCreate }

/-! ## Theorems -/

/-- C3: `hasOutstandingRequirements` returns `true` iff the currently-due
requirement list, with every occurrence of `"external_account"` removed, is
non-empty; in particular it returns `false` when `"external_account"` is the
only currently-due requirement and `true` whenever any other requirement is
currently due. (The source performs a single `accounts.retrieve` and no
mutation; the embedding is the pure function of the retrieved record.) -/
theorem hasOutstandingRequirements_iff_filtered_nonempty :
    (∀ l : List String,
        hasOutstandingRequirements
            (some { requirements := some { currently_due := some l } }) = true ↔
          l.filter
            (fun requirement =>
              !(IGNORE_REQUIREMENTS.contains requirement)) ≠ []) ∧
    hasOutstandingRequirements
        (some { requirements :=
                  some { currently_due := some ["external_account"] } })
      = false ∧
    (∀ (l : List String) (r : String), r ∈ l → r ≠ "external_account" →
        hasOutstandingRequirements
            (some { requirements := some { currently_due := some l } })
          = true) := by
  refine ⟨fun l => ?_, by decide, fun l r hmem hne => ?_⟩
  · simp [hasOutstandingRequirements, List.length_pos]
  · have hfil : r ∈ l.filter
        (fun requirement => !(IGNORE_REQUIREMENTS.contains requirement)) := by
      refine List.mem_filter.mpr ⟨hmem, ?_⟩
      simp [IGNORE_REQUIREMENTS, hne]
    simp only [hasOutstandingRequirements, Option.bind_some, Option.map_some,
      Option.getD_some]
    simpa [List.length_pos] using List.ne_nil_of_mem hfil

/-- C3 witness: a list holding a requirement other than `"external_account"`
makes the probe report outstanding requirements. -/
theorem hasOutstandingRequirements_iff_filtered_nonempty_witness :
    hasOutstandingRequirements
        (some { requirements :=
                  some { currently_due :=
                           some ["external_account", "tos_acceptance.date"] } })
      = true :=
  hasOutstandingRequirements_iff_filtered_nonempty.2.2
    ["external_account", "tos_acceptance.date"] "tos_acceptance.date"
    (by decide) (by decide)

/-- C10: absent `requirements` or absent `currently_due` fall through the
optional chain to the `?? 0` default, so the probe returns `false` rather than
failing; the same holds for an absent account record. -/
theorem hasOutstandingRequirements_null_guard :
    hasOutstandingRequirements none = false ∧
    hasOutstandingRequirements (some { requirements := none }) = false ∧
    hasOutstandingRequirements
        (some { requirements := some { currently_due := none } }) = false :=
  ⟨rfl, rfl, rfl⟩

/-- C6: with the base-redirect configuration absent,
`createAccountOnboardingUrl` throws the configuration error before issuing any
account-link request; with it present, it issues exactly one account-link
request (type `account_onboarding`, refresh/return URLs derived from the base)
and returns the URL of the created link. -/
theorem createAccountOnboardingUrl_config :
    ∀ (accountId : String) (mkUrl : AccountLinkParams → String),
      createAccountOnboardingUrl none accountId mkUrl =
        (Except.error "CONNECT_ONBOARDING_REDIRECT_URL is not set", []) ∧
      ∀ base : String,
        createAccountOnboardingUrl (some base) accountId mkUrl =
          (Except.ok (mkUrl (accountLinkParams base accountId)),
            [accountLinkParams base accountId]) ∧
        (accountLinkParams base accountId).type = "account_onboarding" ∧
        (accountLinkParams base accountId).account = accountId ∧
        (accountLinkParams base accountId).refresh_url = base ++ "/onboard" ∧
        (accountLinkParams base accountId).return_url = base ++ "/" :=
  fun _ _ => ⟨rfl, fun _ => ⟨rfl, rfl, rfl, rfl, rfl⟩⟩

/-- C1: for a valid registration input whose email has no existing `User` row,
`register` performs the remote account creation first and the local insert
second (one event each, in that order), the `accountId` of the inserted row is the
id the remote call returned and its password field is the bcrypt hash, and the
response is a 200 success without payload; moreover, across all runs, a user
insert only ever occurs immediately after a succeeded remote account
creation. -/
theorem register_creates_account_then_user :
    (∀ (demo : Bool) (db : List User) (inp : RegisterInput)
        (remote : AccountCreateParams → Except String String)
        (hash : String → String) (accountId : String),
        userValidationErrors inp = [] →
        db.find? (fun u => u.email = inp.email) = none →
        remote (accountCreateParams demo inp.country inp.email) =
          Except.ok accountId →
        register demo db inp remote hash =
          { response :=
              { status := 200, success := true, errorMessage := none }
            events :=
              [RegisterEvent.accountCreate
                  (accountCreateParams demo inp.country inp.email)
                  (Except.ok accountId),
                RegisterEvent.userInsert
                  { email := inp.email, password := hash inp.password
                    accountId := accountId, country := inp.country }] }) ∧
    (∀ (demo : Bool) (db : List User) (inp : RegisterInput)
        (remote : AccountCreateParams → Except String String)
        (hash : String → String) (u : User),
        RegisterEvent.userInsert u ∈ (register demo db inp remote hash).events →
        ∃ accountId,
          (register demo db inp remote hash).events =
            [RegisterEvent.accountCreate
                (accountCreateParams demo inp.country inp.email)
                (Except.ok accountId),
              RegisterEvent.userInsert u] ∧
          u.accountId = accountId ∧ u.password = hash inp.password) := by
  constructor
  · intro demo db inp remote hash accountId hval hfind hremote
    simp [register, hval, hfind, hremote]
  · intro demo db inp remote hash u hmem
    by_cases hval : userValidationErrors inp = []
    · cases hfind : (db.find? (fun v => v.email = inp.email)).isSome
      · rcases hremote :
            remote (accountCreateParams demo inp.country inp.email) with e | a
        · simp [register, hval, hfind, hremote] at hmem
        · simp only [register, hval, hfind, hremote] at hmem ⊢
          simp at hmem
          subst hmem
          exact ⟨a, by simp [hval, hfind, hremote], rfl, rfl⟩
      · simp [register, hval, hfind] at hmem
    · simp [register, hval] at hmem

/-- C1 witness: a concrete fresh registration in non-demo mode. -/
theorem register_creates_account_then_user_witness :
    register false []
        { email := "user@example.com", password := "Passw0rd", country := "US" }
        (fun _ => Except.ok "acct_123") (fun pw => "hashed:" ++ pw) =
      { response := { status := 200, success := true, errorMessage := none }
        events :=
          [RegisterEvent.accountCreate
              (accountCreateParams false "US" "user@example.com")
              (Except.ok "acct_123"),
            RegisterEvent.userInsert
              { email := "user@example.com", password := "hashed:Passw0rd"
                accountId := "acct_123", country := "US" }] } :=
  register_creates_account_then_user.1 false []
    { email := "user@example.com", password := "Passw0rd", country := "US" }
    (fun _ => Except.ok "acct_123") (fun pw => "hashed:" ++ pw) "acct_123"
    (by decide) rfl rfl

/-- C2: a registration whose (validation-passing) email already has a `User`
row yields the 400 conflict response `"Account already exists"` with an empty
effect trace: no remote account creation and no second insert. -/
theorem register_duplicate_email_conflict :
    ∀ (demo : Bool) (db : List User) (inp : RegisterInput)
      (remote : AccountCreateParams → Except String String)
      (hash : String → String),
      userValidationErrors inp = [] →
      (db.find? (fun u => u.email = inp.email)).isSome = true →
      register demo db inp remote hash =
        { response :=
            { status := 400, success := false
              errorMessage := some "Account already exists" }
          events := [] } := by
  intro demo db inp remote hash hval hdup
  simp [register, hval, hdup]

/-- C2 witness: re-registering an already-present email. -/
theorem register_duplicate_email_conflict_witness :
    register false
        [{ email := "user@example.com", password := "hashed:Passw0rd"
           accountId := "acct_123", country := "US" }]
        { email := "user@example.com", password := "Passw0rd", country := "US" }
        (fun _ => Except.ok "acct_456") (fun pw => "hashed:" ++ pw) =
      { response :=
          { status := 400, success := false
            errorMessage := some "Account already exists" }
        events := [] } :=
  register_duplicate_email_conflict false
    [{ email := "user@example.com", password := "hashed:Passw0rd"
       accountId := "acct_123", country := "US" }]
    { email := "user@example.com", password := "Passw0rd", country := "US" }
    (fun _ => Except.ok "acct_456") (fun pw => "hashed:" ++ pw)
    (by decide) (by decide)

/-- C7: every account-creation request `register` issues has type `"custom"`,
the given country and email, and exactly the two requested capabilities
`transfers` and `card_issuing`; the demo-only fields `business_type =
"individual"` and the synthetic individual tax-id `"000000000"` are present
exactly when demo mode is active. -/
theorem register_account_create_request :
    (∀ (demo : Bool) (country email : String),
        (accountCreateParams demo country email).type = "custom" ∧
        (accountCreateParams demo country email).country = country ∧
        (accountCreateParams demo country email).email = email ∧
        (accountCreateParams demo country email).capabilities_transfers_requested
          = true ∧
        (accountCreateParams demo country
              email).capabilities_card_issuing_requested = true ∧
        (accountCreateParams demo country email).business_type =
          (if demo then some "individual" else none) ∧
        (accountCreateParams demo country email).individual_id_number =
          (if demo then some "000000000" else none)) ∧
    (∀ (demo : Bool) (db : List User) (inp : RegisterInput)
        (remote : AccountCreateParams → Except String String)
        (hash : String → String) (p : AccountCreateParams)
        (r : Except String String),
        RegisterEvent.accountCreate p r ∈ (register demo db inp remote hash).events →
        p = accountCreateParams demo inp.country inp.email) := by
  constructor
  · intro demo country email
    exact ⟨rfl, rfl, rfl, rfl, rfl, rfl, rfl⟩
  · intro demo db inp remote hash p r hmem
    by_cases hval : userValidationErrors inp = []
    · cases hfind : (db.find? (fun v => v.email = inp.email)).isSome
      · rcases hremote :
            remote (accountCreateParams demo inp.country inp.email) with e | a
        · simp [register, hval, hfind, hremote] at hmem
          exact hmem.1
        · simp [register, hval, hfind, hremote] at hmem
          exact hmem.1
      · simp [register, hval, hfind] at hmem
    · simp [register, hval] at hmem

/-- C7 witness: a concrete demo-mode registration issues the demo-shaped
request. -/
theorem register_account_create_request_witness :
    accountCreateParams true "US" "demo@example.com" =
      { type := "custom", country := "US", email := "demo@example.com"
        business_type := some "individual"
        individual_id_number := some "000000000"
        capabilities_transfers_requested := true
        capabilities_card_issuing_requested := true } := by
  have h := register_account_create_request.2 true []
    { email := "demo@example.com", password := "Passw0rd", country := "US" }
    (fun _ => Except.ok "acct_777") (fun pw => pw)
    (accountCreateParams true "US" "demo@example.com") (Except.ok "acct_777")
    (by decide)
  exact h.symm.trans (by decide)

/-- C9: a validation failure makes `register` respond 400 with the aggregate
of all violation messages and perform no side effect; validation is eager, so
the password `"abcdefgh"` accumulates both the missing-digit and the
missing-uppercase messages (it violates no other password rule). -/
theorem register_validation_eager :
    (∀ (demo : Bool) (db : List User) (inp : RegisterInput)
        (remote : AccountCreateParams → Except String String)
        (hash : String → String),
        userValidationErrors inp ≠ [] →
        register demo db inp remote hash =
          { response :=
              { status := 400, success := false
                errorMessage :=
                  some (aggregateErrors (userValidationErrors inp)) }
            events := [] }) ∧
    passwordErrors "abcdefgh" =
      ["Your password must have at least 1 digit character",
        "Your password must have at least 1 uppercase character"] := by
  constructor
  · intro demo db inp remote hash hval
    simp [register, hval]
  · decide

/-- C9 witness: a registration with password `"abcdefgh"` (valid email and
country) is rejected with the two aggregated messages and an empty effect
trace. -/
theorem register_validation_eager_witness :
    register false []
        { email := "user@example.com", password := "abcdefgh", country := "US" }
        (fun _ => Except.ok "acct_123") (fun pw => "hashed:" ++ pw) =
      { response :=
          { status := 400, success := false
            errorMessage :=
              some (aggregateErrors
                ["Your password must have at least 1 digit character",
                  "Your password must have at least 1 uppercase character"]) }
        events := [] } := by
  have h := register_validation_eager.1 false []
    { email := "user@example.com", password := "abcdefgh", country := "US" }
    (fun _ => Except.ok "acct_123") (fun pw => "hashed:" ++ pw) (by decide)
  rw [h]
  have herr : userValidationErrors
      { email := "user@example.com", password := "abcdefgh", country := "US" } =
      ["Your password must have at least 1 digit character",
        "Your password must have at least 1 uppercase character"] := by decide
  rw [herr]

/-- C5: given a validation-passing business name, `onboard` answers 200 with
`redirectUrl = "/"` and without issuing any account-link request exactly when
demo mode is active and the skip flag is (present and) true; in every other
case where the base-redirect configuration is set, it answers 200 with the
hosted link URL, having issued the account update followed by exactly one
account-link request. In particular a non-demo request never bypasses,
whatever the skip flag says. -/
theorem onboard_redirect_spec :
    ∀ (demo : Bool) (s : Session) (businessName : String)
      (skipOnboarding : Option Bool) (config : Option String)
      (mkLinkUrl : AccountLinkParams → String),
      businessValidationErrors demo businessName = [] →
      (((onboard demo s businessName skipOnboarding config
              mkLinkUrl).response.status = 200 ∧
          (onboard demo s businessName skipOnboarding config
              mkLinkUrl).response.redirectUrl = some "/" ∧
          (∀ p, OnboardEvent.accountLinkCreate p ∉
            (onboard demo s businessName skipOnboarding config
                mkLinkUrl).events)) ↔
        (demo = true ∧ skipOnboarding.getD false = true)) ∧
      (∀ base : String, config = some base →
        ¬(demo = true ∧ skipOnboarding.getD false = true) →
        onboard demo s businessName skipOnboarding config mkLinkUrl =
          { response :=
              { status := 200, success := true, errorMessage := none
                redirectUrl :=
                  some (mkLinkUrl (accountLinkParams base s.accountId)) }
            events :=
              [OnboardEvent.accountUpdate s.accountId
                  (buildOnboardingData demo businessName s.country s.email
                    s.financialProduct (skipOnboarding.getD false)),
                OnboardEvent.accountLinkCreate
                  (accountLinkParams base s.accountId)] }) := by
  intro demo s businessName skipOnboarding config mkLinkUrl hval
  constructor
  · cases demo <;> cases hs : skipOnboarding.getD false <;> cases config <;>
      simp [onboard, createAccountOnboardingUrl, hval, hs]
  · intro base hbase hnb
    rcases hbool : demo && skipOnboarding.getD false with _ | _
    · subst hbase
      simp [onboard, createAccountOnboardingUrl, hval, hbool]
    · rw [Bool.and_eq_true] at hbool
      exact absurd hbool hnb

/-- C5 witness: demo mode with `skipOnboarding: true` bypasses the hosted
link even when the link configuration is absent. -/
theorem onboard_redirect_spec_witness :
    (onboard true
        { email := "user@example.com", country := "US"
          financialProduct := FinancialProduct.ExpenseManagement
          accountId := "acct_123", platform := "platform" }
        "Acme" (some true) none
        (fun _ => "https://connect.example/setup")).response.redirectUrl
      = some "/" :=
  ((onboard_redirect_spec true
      { email := "user@example.com", country := "US"
        financialProduct := FinancialProduct.ExpenseManagement
        accountId := "acct_123", platform := "platform" }
      "Acme" (some true) none (fun _ => "https://connect.example/setup")
      (by decide)).1.mpr ⟨rfl, rfl⟩).2.1

/-- C4 counterexample: in demo mode with `skipOnboarding` false, the payload
carries no root ToS acceptance, yet the card-issuing settings ToS acceptance
(and, under Embedded Finance, the treasury one) is present — contradicting the
claim that no ToS acceptance record appears unless skipping. -/
theorem onboard_tos_counterexample :
    (buildOnboardingData true "Acme" "US" "user@example.com"
        FinancialProduct.EmbeddedFinance false).tos_acceptance = none ∧
    (buildOnboardingData true "Acme" "US" "user@example.com"
        FinancialProduct.EmbeddedFinance false).settings =
      some { card_issuing_tos_acceptance := TOS_ACCEPTANCE
             treasury_tos_acceptance := some TOS_ACCEPTANCE } := by
  constructor <;> decide

/-- C4 (amended): in demo mode the root ToS acceptance appears iff the skip
flag is set, the card-issuing settings ToS acceptance always appears, and the
treasury settings ToS acceptance appears iff the financial product is
Embedded Finance — both regardless of the skip flag; outside demo mode the
payload carries no ToS acceptance and no settings at all. -/
theorem onboard_tos_gating :
    ∀ (businessName country email : String) (fp : FinancialProduct)
      (skip : Bool),
      ((buildOnboardingData true businessName country email fp
          skip).tos_acceptance =
        if skip then some TOS_ACCEPTANCE else none) ∧
      ((buildOnboardingData true businessName country email fp skip).settings =
        some { card_issuing_tos_acceptance := TOS_ACCEPTANCE
               treasury_tos_acceptance :=
                 if fp = FinancialProduct.EmbeddedFinance then
                   some TOS_ACCEPTANCE
                 else none }) ∧
      (buildOnboardingData false businessName country email fp
          skip).tos_acceptance = none ∧
      (buildOnboardingData false businessName country email fp
          skip).settings = none := by
  intro businessName country email fp skip
  refine ⟨?_, ?_, rfl, rfl⟩ <;> simp [buildOnboardingData]

/-- C8 counterexample: for a GB session in demo mode, the synthetic
individual address carries city and postal code but no state field —
contradicting the claim that the address carries city/state/postal fields
exactly when the session country is US or GB. -/
theorem onboard_kyc_counterexample :
    ((buildOnboardingData true "Acme" "GB" "user@example.com"
        FinancialProduct.ExpenseManagement false).individual.map
      (fun i => i.address)) =
      some { line1 := some "address_full_match", city := some "London"
             state := none, postal_code := some "WC32 4AP"
             country := some "GB" } := by
  decide

/-- C8 (amended): the payload always sets `business_profile.name` to the
submitted business name; outside demo mode there is no individual overlay; in
demo mode the synthetic individual has `line1` equal to the auto-verify
sentinel, date of birth 1901-01-01 and the session email, its address carries
city and postal-code fields exactly when the session country is US or GB and a
state field exactly when it is US, and any other country supplies only the
sentinel line and the country code. -/
theorem onboard_kyc_overlay :
    (∀ (demo : Bool) (businessName country email : String)
        (fp : FinancialProduct) (skip : Bool),
        (buildOnboardingData demo businessName country email fp
            skip).business_profile.name = businessName) ∧
    (∀ (businessName country email : String) (fp : FinancialProduct)
        (skip : Bool),
        (buildOnboardingData false businessName country email fp
            skip).individual = none) ∧
    (∀ (businessName country email : String) (fp : FinancialProduct)
        (skip : Bool),
        ∃ i, (buildOnboardingData true businessName country email fp
            skip).individual = some i ∧
          i.address.line1 = some "address_full_match" ∧
          i.dob = { day := 1, month := 1, year := 1901 } ∧
          i.email = email ∧
          ((i.address.city ≠ none ∧ i.address.postal_code ≠ none) ↔
            (country = "US" ∨ country = "GB")) ∧
          (i.address.state ≠ none ↔ country = "US") ∧
          i.address.country = some country ∧
          (country ≠ "US" → country ≠ "GB" →
            i.address =
              { line1 := some "address_full_match", city := none
                state := none, postal_code := none
                country := some country })) := by
  refine ⟨?_, ?_, ?_⟩
  · intro demo businessName country email fp skip
    cases demo <;> rfl
  · intro businessName country email fp skip
    rfl
  · intro businessName country email fp skip
    refine ⟨_, rfl, rfl, rfl, rfl, ?_, ?_, rfl, ?_⟩
    · by_cases hus : country = "US" <;> by_cases hgb : country = "GB" <;>
        simp [buildOnboardingData, hus, hgb]
    · by_cases hus : country = "US" <;>
        simp [buildOnboardingData, hus]
    · intro hus hgb
      simp [buildOnboardingData, hus, hgb]

/-- C8 witness: a demo-mode session with an unrecognized country supplies
only the sentinel line and the country code. -/
theorem onboard_kyc_overlay_witness :
    ((buildOnboardingData true "Acme" "DE" "user@example.com"
        FinancialProduct.ExpenseManagement false).individual.map
      (fun i => i.address)) =
      some { line1 := some "address_full_match", city := none, state := none
             postal_code := none, country := some "DE" } := by
  obtain ⟨i, hi, -, -, -, -, -, -, haddr⟩ :=
    onboard_kyc_overlay.2.2 "Acme" "DE" "user@example.com"
      FinancialProduct.ExpenseManagement false
  simp [hi, haddr (by decide) (by decide)]

end IssuingTreasury
